import Mathlib

/-!
Verification of the normalization/inference core of the waqf DCB import
scripts (src/scripts/*.py).  Python strings are embedded as `List Char`;
cell values coming from pandas are `Option (List Char)` where `none`
stands for a missing cell (`None` / `NaN`); Python floats are embedded as
rationals (all values in the verified claims are exact decimals); the
`pd.to_datetime` fallback of the date parsers is an explicit function
parameter `fb`, since it is library code outside this repository.
-/

namespace Waqf

abbrev LC := List Char

/-- Python `str.isspace` for the ASCII whitespace that occurs in the data. -/
def isWs (c : Char) : Bool :=
  c = ' ' || c = '\t' || c = '\n' || c = '\r' || c = '\x0b' || c = '\x0c'

/-- Python `str.strip()`. -/
def pyStrip (l : LC) : LC :=
  ((l.dropWhile isWs).reverse.dropWhile isWs).reverse

/-- Python `str.lower()`. -/
def pyLower (l : LC) : LC := l.map Char.toLower

/-- Python `str.isdigit()` (empty string is not a digit string). -/
def isdigitPy (l : LC) : Bool := !l.isEmpty && l.all Char.isDigit

/-- Helper for `pySplit`: accumulates the current piece (reversed). -/
def pySplitAux (sep : Char) (acc : LC) : LC → List LC
  | [] => [acc.reverse]
  | c :: rest =>
    if c = sep then acc.reverse :: pySplitAux sep [] rest
    else pySplitAux sep (c :: acc) rest

/-- Python `str.split(sep)` for a one-character separator. -/
def pySplit (sep : Char) (l : LC) : List LC := pySplitAux sep [] l

/-- Python `sep.join(parts)`. -/
def pyJoin (sep : LC) (parts : List LC) : LC := List.intercalate sep parts

/-- Python `s.zfill(n)` on the digit strings produced by the scripts. -/
def zfill (n : Nat) (l : LC) : LC :=
  if n ≤ l.length then l else List.replicate (n - l.length) '0' ++ l

/-- Python `re.sub(r'\D', '', s)`. -/
def digitsOnly (l : LC) : LC := l.filter Char.isDigit

/-- Value of a digit string, as computed by Python `int`. -/
def parseDigits (l : LC) : Nat := l.foldl (fun a c => a * 10 + (c.toNat - 48)) 0

/-- Helper for `subCommaWs`; the flag says a comma was just replaced, so
whitespace is being skipped. -/
def subCommaWsAux : Bool → LC → LC
  | _, [] => []
  | skip, c :: rest =>
    if skip && isWs c then subCommaWsAux true rest
    else if c = ',' then '-' :: subCommaWsAux true rest
    else c :: subCommaWsAux false rest

/-- Python `re.sub(r',\s*', '-', s)`. -/
def subCommaWs (l : LC) : LC := subCommaWsAux false l

/-- Helper for `subWs`; the flag says we are inside a whitespace run. -/
def subWsAux : Bool → LC → LC
  | _, [] => []
  | inWs, c :: rest =>
    if isWs c then
      if inWs then subWsAux true rest else '-' :: subWsAux true rest
    else c :: subWsAux false rest

/-- Python `re.sub(r'\s+', '-', s)`. -/
def subWs (l : LC) : LC := subWsAux false l

/-- Sign of a Python float literal; `true` means negative. -/
def parseSign : LC → Bool × LC
  | '+' :: r => (false, r)
  | '-' :: r => (true, r)
  | r => (false, r)

/-- The rational `sign * mant * 10^exp / 10^fracLen`, built with `mkRat`
only, so that it evaluates inside the kernel. -/
def decimalToRat (neg : Bool) (mant : Nat) (exp : Nat) (expNeg : Bool)
    (fracLen : Nat) : ℚ :=
  let num : Int := if expNeg then (mant : Int) else (mant * 10 ^ exp : Nat)
  let den : Nat := if expNeg then 10 ^ (fracLen + exp) else 10 ^ fracLen
  if neg then mkRat (-num) den else mkRat num den

/-- Python `float(s)` on finite decimal / scientific-notation literals,
embedded into ℚ.  `none` models the `ValueError` the scripts catch. -/
def parseFloat (l0 : LC) : Option ℚ :=
  let l := pyStrip l0
  let sl := parseSign l
  let ip := sl.2.takeWhile Char.isDigit
  let r1 := sl.2.dropWhile Char.isDigit
  let fpr :=
    match r1 with
    | '.' :: t => (t.takeWhile Char.isDigit, t.dropWhile Char.isDigit)
    | _ => (([] : LC), r1)
  if ip = [] ∧ fpr.1 = [] then none
  else
    let mant := parseDigits (ip ++ fpr.1)
    match fpr.2 with
    | [] => some (decimalToRat sl.1 mant 0 false fpr.1.length)
    | e :: t =>
      if e = 'e' ∨ e = 'E' then
        let es := parseSign t
        let ed := es.2.takeWhile Char.isDigit
        let r3 := es.2.dropWhile Char.isDigit
        if ed = [] ∨ r3 ≠ [] then none
        else some (decimalToRat sl.1 mant (parseDigits ed) es.1 fpr.1.length)
      else none

example : parseFloat ("12345.00".data) = some 12345 := by decide
example : parseFloat ("-2.5".data) = some (mkRat (-5) 2) := by decide
example : parseFloat ("1E+06".data) = some 1000000 := by decide
example : parseFloat ("Shops".data) = none := by decide
example : parseFloat ("".data) = none := by decide
example : pySplit '/' ("2614/53/05-06-2025".data)
    = ["2614".data, "53".data, "05-06-2025".data] := by decide
example : subWs (subCommaWs ("05, 06 2025".data)) = "05-06-2025".data := by decide

/-! ## Value Normalizer: numeric cleaning

Five per-script variants.  Note the character classes: `import_dcb_data.py`
(and the csv / waqf scripts) strip the real rupee sign `'₹'`, while
`import_dcb_complete.py` / `import_dcb_mcp.py` have the literal three
characters `'â' '‚' '¹'` in their regex class (the cp1252 misdecoding of
the UTF-8 bytes of `₹`), and `import_dcb_from_excel.py` removes the
three-character sequence `"â‚¹"`. -/

/-- Sentinel list of `clean_numeric` in `import_dcb_complete.py` (line 92)
and `import_dcb_mcp.py` (line 56). -/
def numSentinelsComplete : List LC :=
  ["-".data, "".data, "nan".data, "NaN".data, "None".data, "Shops".data]

/-- `clean_numeric` of `import_dcb_complete.py` (lines 85-99), identical in
`import_dcb_mcp.py` (lines 48-63).  Its regex class `[â‚¹,\s]` holds the
mojibake characters, a comma and whitespace — not `'₹'`. -/
def clean_numeric_complete (v : Option LC) : ℚ :=
  match v with
  | none => 0
  | some s0 =>
    let s := pyStrip s0
    if s ∈ numSentinelsComplete then 0
    else
      match parseFloat (s.filter
          (fun c => !(c = 'â' || c = '‚' || c = '¹' || c = ',' || isWs c))) with
      | some q => q
      | none => 0

/-- `clean_numeric` of `import_dcb_data.py` (lines 76-89); same shape but
its regex class `[₹,\s]` holds the real rupee sign. -/
def clean_numeric_data (v : Option LC) : ℚ :=
  match v with
  | none => 0
  | some s0 =>
    let s := pyStrip s0
    if s ∈ ["-".data, "".data, "nan".data, "NaN".data, "None".data] then 0
    else
      match parseFloat (s.filter (fun c => !(c = '₹' || c = ',' || isWs c))) with
      | some q => q
      | none => 0

/-- `clean_numeric` of `import_dcb_from_csv_all_districts.py` (lines 81-100):
returns `None` (not `0`) for absent values, strips `, ₹ $`. -/
def clean_numeric_csv (v : Option LC) : Option ℚ :=
  match v with
  | none => none
  | some s0 =>
    let s := pyStrip s0
    if s = [] ∨ pyLower s ∈ ["".data, "nan".data, "none".data, "null".data,
        "n/a".data, "-".data, "nil".data] then none
    else
      parseFloat (pyStrip
        (s.filter (fun c => !(c = ',' || c = '₹' || c = '$'))))

/-- `clean_number` of `import_waqf_consolidated_excel.py` (lines 42-55):
case-insensitive sentinel list that includes `"shops"`. -/
def clean_number_waqf (v : Option LC) : ℚ :=
  match v with
  | none => 0
  | some s0 =>
    let s := pyStrip s0
    if s = [] ∨ pyLower s ∈ ["nan".data, "null".data, "none".data,
        "-".data, "shops".data] then 0
    else
      match parseFloat ((s.filter (· ≠ ',')).filter
          (fun c => !(c = '₹' || isWs c))) with
      | some q => q
      | none => 0

/-- Python `str.replace("â‚¹", "")`: removes every occurrence of the
three-character mojibake sequence, scanning left to right. -/
def removeMojibake : LC → LC
  | 'â' :: '‚' :: '¹' :: rest => removeMojibake rest
  | c :: rest => c :: removeMojibake rest
  | [] => []

/-- `clean_numeric` of `import_dcb_from_excel.py` (lines 102-115).  The
scientific-notation branch and the fall-through both call `float`, so they
collapse to one `parseFloat`. -/
def clean_numeric_excel (v : Option LC) : ℚ :=
  match v with
  | none => 0
  | some s0 =>
    match parseFloat (pyStrip (removeMojibake (s0.filter (· ≠ ',')))) with
    | some q => q
    | none => 0

/-- `clean_numeric` of `import_consolidated_excel.py` (lines 77-88). -/
def clean_numeric_consolidated (v : Option LC) : Option ℚ :=
  match v with
  | none => none
  | some s =>
    if s = [] ∨ s = "None".data ∨ pyStrip s = [] then none
    else
      let c := pyStrip (s.filter (· ≠ ','))
      if c = [] ∨ pyLower c = "null".data then none
      else parseFloat c

/-! ## Value Normalizer: text cleaning -/

/-- Sentinel list of `clean_text` in `import_dcb_from_excel.py` (line 98);
note there is no `"null"` in it. -/
def textSentinelsExcel : List LC :=
  ["nan".data, "none".data, "".data, "-".data, "n/a".data, "na".data]

/-- `clean_text` of `import_dcb_from_excel.py` (lines 93-100). -/
def clean_text_excel (v : Option LC) : Option LC :=
  match v with
  | none => none
  | some s =>
    let t := pyStrip s
    if pyLower t ∈ textSentinelsExcel then none
    else if t = [] then none
    else some t

/-- `clean_text` of `import_consolidated_excel.py` (lines 90-94): only
missing / empty / whitespace-only values become `None`. -/
def clean_text_consolidated (v : Option LC) : Option LC :=
  match v with
  | none => none
  | some s => if s = [] ∨ pyStrip s = [] then none else some (pyStrip s)

/-- `clean_text` of `import_dcb_from_csv_all_districts.py` (lines 102-109). -/
def clean_text_csv (v : Option LC) : Option LC :=
  match v with
  | none => none
  | some s =>
    let t := pyStrip s
    if t = [] ∨ pyLower t ∈ ["".data, "nan".data, "none".data, "null".data] then none
    else some t

/-! ## Value Normalizer: date parsing

`parse_date` of `import_dcb_complete.py` (lines 101-157) and of
`import_dcb_data.py` (lines 91-125).  Their final `pd.to_datetime`
resort is external library code, passed in as the parameter `fb`. -/

/-- Sentinel list shared by both `parse_date` variants. -/
def dateSentinels : List LC := ["-".data, "".data, "nan".data, "NaN".data]

/-- `f"{y}-{m.zfill(2)}-{d.zfill(2)}"`. -/
def fmtDate (d m y : LC) : LC := y ++ '-' :: (zfill 2 m ++ '-' :: zfill 2 d)

/-- The `"/" in date_str and "-" in date_str` branch of
`import_dcb_complete.py:parse_date` (lines 114-126): takes the part after
the last slash, splits it on dashes, normalizes a two-digit year to
`20YY`, and returns as soon as the year has four digits — with no range
validation of year, month or day.  `none` means fall through. -/
def slashBranchComplete (s : LC) : Option LC :=
  if ('/' ∈ s) ∧ ('-' ∈ s) then
    let parts := pySplit '/' s
    if 3 ≤ parts.length then
      let dp := parts.getLastD []
      if '-' ∈ dp then
        match pySplit '-' dp with
        | [d, m, y0] =>
          let y := if y0.length = 2 then '2' :: '0' :: y0 else y0
          if y.length = 4 ∧ isdigitPy y then some (fmtDate d m y) else none
        | _ => none
      else none
    else none
  else none

/-- Range guard of the plain-dash branch (`import_dcb_complete.py`
lines 144-148): the two-digit-year fix has already been applied; the
candidate is returned only when the year has four digits and year, month
and day all lie inside the checked ranges. -/
def dashRangeGuard (d m y : LC) : Option (LC × LC × LC) :=
  if y.length = 4 ∧ isdigitPy y ∧ 2000 ≤ parseDigits y ∧ parseDigits y ≤ 2100
      ∧ 1 ≤ parseDigits m ∧ parseDigits m ≤ 12
      ∧ 1 ≤ parseDigits d ∧ parseDigits d ≤ 31 then
    some (d, m, y)
  else none

/-- Non-emptiness guard and two-digit-year fix of the plain-dash branch
(`import_dcb_complete.py` lines 143-145). -/
def dashDigitGuard (d m y1 : LC) : Option (LC × LC × LC) :=
  if d ≠ [] ∧ m ≠ [] ∧ y1 ≠ [] then
    dashRangeGuard d m (if y1.length = 2 then '2' :: '0' :: y1 else y1)
  else none

/-- The plain `DD-MM-YYYY` branch of `import_dcb_complete.py:parse_date`
(lines 129-148), returning the digit-cleaned components `(d, m, y)` when
every guard — including the year/month/day range checks — passes. -/
def dashBranchCore (s : LC) : Option (LC × LC × LC) :=
  if '-' ∈ s then
    match pySplit '-' s with
    | [d0, m0, y0] =>
      dashDigitGuard (digitsOnly (pyStrip d0)) (digitsOnly (pyStrip m0))
        (digitsOnly (pyStrip y0))
    | _ => none
  else none

/-- Formatted result of the plain-dash branch. -/
def dashBranchComplete (s : LC) : Option LC :=
  (dashBranchCore s).map (fun t => fmtDate t.1 t.2.1 t.2.2)

/-- `parse_date` of `import_dcb_complete.py` (lines 101-157): sentinel
filtering, comma/whitespace-to-dash preprocessing, then the slash branch,
the dash branch, and finally the `pd.to_datetime` fallback `fb`. -/
def parse_date_complete (fb : LC → Option LC) (v : Option LC) : Option LC :=
  match v with
  | none => none
  | some raw =>
    if raw = [] then none
    else
      let s := pyStrip raw
      if s ∈ dateSentinels then none
      else
        let p := subWs (subCommaWs s)
        match slashBranchComplete p with
        | some r => some r
        | none =>
          match dashBranchComplete p with
          | some r => some r
          | none => fb p

/-- The `DD-MM-YYYY` branch of `import_dcb_data.py:parse_date`
(lines 113-116): reorders the three dash-separated parts with no
validation at all; otherwise the `pd.to_datetime` fallback `fb`. -/
def dashBranchData (fb : LC → Option LC) (s : LC) : Option LC :=
  if ('-' ∈ s) ∧ (pySplit '-' s).length = 3 then
    match pySplit '-' s with
    | [d, m, y] => some (y ++ '-' :: (m ++ '-' :: d))
    | _ => none
  else fb s

/-- `parse_date` of `import_dcb_data.py` (lines 91-125).  A slash-composite
whose last part does not split into exactly three dash parts raises in the
tuple unpacking, is caught by the enclosing `try`, and yields `None`. -/
def parse_date_data (fb : LC → Option LC) (v : Option LC) : Option LC :=
  match v with
  | none => none
  | some raw =>
    if raw = [] then none
    else
      let s := pyStrip raw
      if s ∈ dateSentinels then none
      else if ('/' ∈ s) ∧ ('-' ∈ s) then
        let parts := pySplit '/' s
        if 3 ≤ parts.length then
          let dp := parts.getLastD []
          if '-' ∈ dp then
            match pySplit '-' dp with
            | [d, m, y] => some (y ++ '-' :: (m ++ '-' :: d))
            | _ => none
          else dashBranchData fb s
        else dashBranchData fb s
      else dashBranchData fb s

/-! ## Value Normalizer: composite receipt/challan splitting -/

/-- `extract_receipt_info` of `import_dcb_complete.py` (lines 159-173):
splits only on `'/'`; the number is everything before the last slash and
the date is parsed from the part after it; a string without a slash gives
`(None, None)`. -/
def extract_receipt_info (fb : LC → Option LC) (v : Option LC) :
    Option LC × Option LC :=
  match v with
  | none => (none, none)
  | some raw =>
    if raw = [] then (none, none)
    else
      let s := pyStrip raw
      if s ∈ dateSentinels then (none, none)
      else if '/' ∈ s then
        let parts := pySplit '/' s
        if 2 ≤ parts.length then
          (some (pyJoin ("/".data) parts.dropLast),
           parse_date_complete fb (some (parts.getLastD [])))
        else (none, none)
      else (none, none)

/-- A trivially rejecting stand-in for the external `pd.to_datetime`
fallback, used to instantiate concrete evaluations whose control flow
never reaches the fallback. -/
def fbNone : LC → Option LC := fun _ => none

example : clean_numeric_complete (some ("₹12,345.00".data)) = 0 := by decide
example : clean_numeric_complete (some ("12345.00".data)) = 12345 := by decide
example : clean_numeric_data (some ("₹12,345.00".data)) = 12345 := by decide
example : clean_numeric_csv (some ("₹12,345.00".data)) = some 12345 := by decide
example : clean_numeric_excel (some ("â‚¹12,345.00".data)) = 12345 := by decide
example : parse_date_complete fbNone (some ("05-06-2025".data))
    = some ("2025-06-05".data) := by decide
example : parse_date_complete fbNone (some ("1/2/31-12-1900".data))
    = some ("1900-12-31".data) := by decide
example : parse_date_data fbNone (some ("1-13-2025".data))
    = some ("2025-13-1".data) := by decide
example : extract_receipt_info fbNone (some ("2614/53/05-06-2025".data))
    = (some ("2614/53".data), some ("2025-06-05".data)) := by decide
example : extract_receipt_info fbNone (some ("123,01-01-2024".data))
    = (none, none) := by decide
example : extract_receipt_info fbNone (some ("-".data)) = (none, none) := by decide
example : clean_text_excel (some ("null".data)) = some ("null".data) := by decide
example : clean_text_consolidated (some ("nan".data)) = some ("nan".data) := by decide

/-! ## Row Classifier

The per-row identity checks of `import_dcb_from_excel.py:process_excel_file`
(lines 344-374), `import_dcb_complete.py:process_sheet` (lines 221-234) and
`import_dcb_from_csv_all_districts.py:process_csv_row` (lines 150-151 with
the validation of lines 210-212).  Each function takes the raw identity
cells (AP gazette number, institution name) and returns the cleaned pair
exactly when the row survives every identity check. -/

/-- `skip_patterns` of `import_dcb_from_excel.py` (line 366). -/
def skipPatternsExcel : List LC :=
  ["ap no".data, "ap gazette no".data, "gazette".data, "sl no".data,
   "s.no".data, "serial no".data, "sno".data, "serial number".data]

/-- The institution-name skip list of `import_dcb_from_excel.py` (line 367). -/
def nameSkipExcel : List LC :=
  ["institution name".data, "name of institution".data, "name".data,
   "waqf name".data]

/-- Identity checks of `import_dcb_from_excel.py` (lines 344-374): clean
both cells, require both present, reject lowercase sentinel matches, and
reject a purely numeric AP number of length ≤ 3. -/
def excelRowIdentity (c1 c2 : Option LC) : Option (LC × LC) :=
  match clean_text_excel c1, clean_text_excel c2 with
  | some ap, some nm =>
    if pyLower ap ∈ skipPatternsExcel ∨ pyLower nm ∈ nameSkipExcel then none
    else if isdigitPy ap && ap.length ≤ 3 then none
    else some (ap, nm)
  | _, _ => none

/-- AP-number sentinel list of `import_dcb_complete.py` (line 222),
compared case-sensitively. -/
def apSentinelsComplete : List LC :=
  ["nan".data, "NaN".data, "2".data, "-".data, "".data,
   "A.P.Gazette Sl. No.".data, "A.P.Gazette Sl.No.".data,
   "A.P.               Gazette                 Sl. No.".data,
   "A.P.      Gazette Sl. No.".data, "A.P. Gazette Sl.No.".data,
   "A.P Gazette Sl.No.".data, "A.P.Gazette Sl. No".data,
   "Gazette SL.NO".data]

/-- Institution-name sentinel list of `import_dcb_complete.py` (line 232). -/
def nameSentinelsComplete : List LC :=
  ["nan".data, "NaN".data, "3".data, "".data,
   "Name of the Institution.".data, "Name of the Institution".data,
   "Name of the Institution & location".data]

/-- Identity checks of `import_dcb_complete.py:process_sheet`
(lines 221-234): case-sensitive sentinel lists and a purely numeric AP
number is rejected only up to length ≤ 2. -/
def completeRowIdentity (c1 c2 : Option LC) : Option (LC × LC) :=
  match c1 with
  | none => none
  | some r1 =>
    let ap := pyStrip r1
    if ap = [] ∨ ap ∈ apSentinelsComplete then none
    else if isdigitPy ap && ap.length ≤ 2 then none
    else
      match c2 with
      | none => none
      | some r2 =>
        let nm := pyStrip r2
        if nm = [] ∨ nm ∈ nameSentinelsComplete then none
        else some (ap, nm)

/-- Identity slice of `import_dcb_from_csv_all_districts.py:process_csv_row`
(lines 150-151, 210-212): text-clean both identity cells and raise
`ValueError` when either is absent; otherwise the returned dict carries
exactly the cleaned values. -/
def csvRowIdentity (c1 c2 : Option LC) : Except Unit (LC × LC) :=
  match clean_text_csv c1, clean_text_csv c2 with
  | some a, some n => Except.ok (a, n)
  | _, _ => Except.error ()

/-! ## Header Resolver

`find_column_index` and `flatten_column_name` of
`import_dcb_from_excel.py` (lines 200-222). -/

/-- A pandas column label: a plain string or a multi-level tuple whose
levels may be NaN. -/
inductive PyCol where
  | single (s : LC)
  | multi (levels : List (Option LC))

/-- The concatenated lowercase header text the matcher scans:
`str(col).lower().strip()` for a plain label, and the space-join of the
lowercased non-NaN levels for a tuple. -/
def colText : PyCol → LC
  | .single s => pyStrip (pyLower s)
  | .multi ls => pyJoin (" ".data) (ls.filterMap (Option.map pyLower))

/-- `needle` is a leading segment of `hay`. -/
def leadsWith : LC → LC → Bool
  | [], _ => true
  | _ :: _, [] => false
  | a :: as, b :: bs => a = b && leadsWith as bs

/-- Python substring containment `needle in hay`. -/
def containsSub (needle : LC) : LC → Bool
  | [] => needle.isEmpty
  | h :: t => leadsWith needle (h :: t) || containsSub needle t

/-- One column satisfies one rule: all search terms and no exclude term
occur as (lowercase) substrings of the column text. -/
def colMatches (search exclude : List LC) (c : PyCol) : Bool :=
  search.all (fun t => containsSub (pyLower t) (colText c)) &&
  !(exclude.any (fun t => containsSub (pyLower t) (colText c)))

/-- The `for idx, col in enumerate(df.columns)` loop: first index whose
column satisfies `p`. -/
def findColAux (p : PyCol → Bool) (i : Nat) : List PyCol → Option Nat
  | [] => none
  | c :: rest => if p c then some i else findColAux p (i + 1) rest

/-- `find_column_index` of `import_dcb_from_excel.py` (lines 200-216). -/
def find_column_index (cols : List PyCol) (search exclude : List LC) :
    Option Nat :=
  findColAux (colMatches search exclude) 0 cols

/-! ## Record Assembler

The value each script writes into its `dcb_data` / `record` dict for the
extent and financial fields.  `Val` is the JSON-ish value space: a record
field is `null`, a number, or text. -/

inductive Val where
  | null : Val
  | num : ℚ → Val
  | text : LC → Val
deriving DecidableEq

/-- The six extent/financial fields of an assembled DCB record. -/
structure DcbVals where
  ext_dry : Val
  ext_wet : Val
  d_arrears : Val
  d_current : Val
  c_arrears : Val
  c_current : Val
deriving DecidableEq

/-- Field assembly of `import_dcb_complete.py:process_sheet`
(lines 238-250 and 282-301): extents become `None` unless positive,
financial fields are the (total, never-`None`) `clean_numeric` output. -/
def completeDcb (ed ew da dc ca cc : Option LC) : DcbVals :=
  let x1 := clean_numeric_complete ed
  let x2 := clean_numeric_complete ew
  { ext_dry := if 0 < x1 then Val.num x1 else Val.null
    ext_wet := if 0 < x2 then Val.num x2 else Val.null
    d_arrears := Val.num (clean_numeric_complete da)
    d_current := Val.num (clean_numeric_complete dc)
    c_arrears := Val.num (clean_numeric_complete ca)
    c_current := Val.num (clean_numeric_complete cc) }

/-- `safe_get(col_idx, 0.0, True)` of `import_dcb_from_excel.py`
(lines 384-400): an unmapped or out-of-range column (outer `none`) gives
the default `0.0`, otherwise the cell is numerically cleaned. -/
def excelSafeNum (cell : Option (Option LC)) : ℚ :=
  match cell with
  | none => 0
  | some v => clean_numeric_excel v

/-- Field assembly of `import_dcb_from_excel.py:process_excel_file`
(lines 395-427): every extent and financial field is emitted as a number,
zero when absent — extents are never converted to `None`. -/
def excelDcb (ed ew da dc ca cc : Option (Option LC)) : DcbVals :=
  { ext_dry := Val.num (excelSafeNum ed)
    ext_wet := Val.num (excelSafeNum ew)
    d_arrears := Val.num (excelSafeNum da)
    d_current := Val.num (excelSafeNum dc)
    c_arrears := Val.num (excelSafeNum ca)
    c_current := Val.num (excelSafeNum cc) }

/-- Field assembly of `import_consolidated_excel.py:import_excel_data`
(lines 173-214): the four financial fields are forced to `0` when cleaning
gave `None`; extent fields keep `None` only when cleaning gave `None`
(the key is dropped from the record), while an explicit `0` cell stays a
number. -/
def consolidatedDcb (ed ew da dc ca cc : Option LC) : DcbVals :=
  { ext_dry := match clean_numeric_consolidated ed with
      | none => Val.null
      | some q => Val.num q
    ext_wet := match clean_numeric_consolidated ew with
      | none => Val.null
      | some q => Val.num q
    d_arrears := Val.num ((clean_numeric_consolidated da).getD 0)
    d_current := Val.num ((clean_numeric_consolidated dc).getD 0)
    c_arrears := Val.num ((clean_numeric_consolidated ca).getD 0)
    c_current := Val.num ((clean_numeric_consolidated cc).getD 0) }

/-! ## Batch Reconciler

The batch-insert loop of `import_consolidated_excel.py:import_excel_data`
(lines 228-249).  The external store is abstracted by two oracles: `bOk`
says whether a whole-batch insert succeeds, `ook` whether a single-record
insert succeeds.  The state is `(inserted, failed, persisted records)`. -/

/-- The per-record fallback loop `for record in batch: ...` of
`import_consolidated_excel.py` (lines 243-249). -/
def retryFold {α : Type} (ook : α → Bool) (acc : Nat × Nat × List α) :
    List α → Nat × Nat × List α
  | [] => acc
  | r :: rest =>
    if ook r then retryFold ook (acc.1 + 1, acc.2.1, acc.2.2 ++ [r]) rest
    else retryFold ook (acc.1, acc.2.1 + 1, acc.2.2) rest

/-- One iteration of the batch loop (lines 233-249): on success the whole
batch counts as inserted; on failure the whole batch is first counted under
`failed`, then every record is retried individually. -/
def processBatch {α : Type} (bOk : List α → Bool) (ook : α → Bool)
    (acc : Nat × Nat × List α) (batch : List α) : Nat × Nat × List α :=
  if bOk batch then (acc.1 + batch.length, acc.2.1, acc.2.2 ++ batch)
  else retryFold ook (acc.1, acc.2.1 + batch.length, acc.2.2) batch

/-- Fuel-driven chunking helper. -/
def chunksF {α : Type} (n : Nat) : Nat → List α → List (List α)
  | _, [] => []
  | 0, l => [l]
  | fuel + 1, l => l.take n :: chunksF n fuel (l.drop n)

/-- `records[i:i + batch_size]` slicing of the batch loop (line 234). -/
def chunks {α : Type} (n : Nat) (l : List α) : List (List α) :=
  chunksF n l.length l

/-- The whole batch loop of `import_consolidated_excel.py` (lines 228-249)
with `batch_size = 100`, returning `(inserted, failed, persisted)`. -/
def importExcelBatches {α : Type} (bOk : List α → Bool) (ook : α → Bool)
    (records : List α) : Nat × Nat × List α :=
  (chunks 100 records).foldl (fun acc b => processBatch bOk ook acc b) (0, 0, [])

example : excelRowIdentity (some ("A1234".data)) (some ("Sri Temple".data))
    = some ("A1234".data, "Sri Temple".data) := by decide
example : excelRowIdentity (some ("12".data)) (some ("Sri Temple".data))
    = none := by decide
example : completeRowIdentity (some ("999".data)) (some ("Sri Temple".data))
    = some ("999".data, "Sri Temple".data) := by decide
example : completeRowIdentity (some ("12".data)) (some ("Sri Temple".data))
    = none := by decide
example : find_column_index
    [PyCol.single ("Sl No".data),
     PyCol.multi [some ("Extent Ac0Cents".data), some ("Dry".data)],
     PyCol.multi [some ("Extent Ac0Cents".data), some ("Wet".data)]]
    ["extent".data, "dry".data] ["total".data, "wet".data] = some 1 := by decide
example : (excelDcb (some none) (some none) (some none) (some none)
    (some none) (some none)).ext_dry = Val.num 0 := by decide
example : (completeDcb (some ("0".data)) none none none none none).ext_dry
    = Val.null := by decide
example : (consolidatedDcb (some ("0".data)) none none none none none).ext_dry
    = Val.num 0 := by decide
example : importExcelBatches (fun _ => false) (fun _ => true) [(0 : Nat)]
    = (1, 1, [0]) := by decide

/-! ## Shared lemmas -/

theorem clean_text_excel_ne_nil (v : Option LC) (t : LC)
    (h : clean_text_excel v = some t) : t ≠ [] := by
  cases v with
  | none => simp [clean_text_excel] at h
  | some s =>
    simp only [clean_text_excel] at h
    split at h
    · exact absurd h (by simp)
    · split at h
      · exact absurd h (by simp)
      · rename_i hne
        injection h with h
        subst h
        exact hne

theorem clean_text_csv_ne_nil (v : Option LC) (t : LC)
    (h : clean_text_csv v = some t) : t ≠ [] := by
  cases v with
  | none => simp [clean_text_csv] at h
  | some s =>
    simp only [clean_text_csv] at h
    split at h
    · exact absurd h (by simp)
    · rename_i hne
      injection h with h
      subst h
      intro hnil
      exact hne (Or.inl hnil)

theorem findColAux_eq_some (p : PyCol → Bool) :
    ∀ (cols : List PyCol) (k i : Nat),
      findColAux p k cols = some i ↔
        ∃ j, i = k + j ∧ (∃ c, cols[j]? = some c ∧ p c = true) ∧
          ∀ b c, b < j → cols[b]? = some c → p c = false := by
  intro cols
  induction cols with
  | nil =>
    intro k i
    simp [findColAux]
  | cons hd tl ih =>
    intro k i
    by_cases h : p hd
    · simp only [findColAux, h, if_true]
      constructor
      · intro h0
        injection h0 with h0
        refine ⟨0, by omega, ⟨hd, by simp, h⟩, ?_⟩
        intro b c hb
        omega
      · rintro ⟨j, rfl, ⟨c, hc, hpc⟩, hmin⟩
        cases j with
        | zero => simp
        | succ j2 =>
          have hf := hmin 0 hd (by omega) (by simp)
          rw [h] at hf
          cases hf
    · rw [show findColAux p k (hd :: tl) = findColAux p (k + 1) tl by
        simp [findColAux, h]]
      rw [ih (k + 1) i]
      constructor
      · rintro ⟨j, rfl, ⟨c, hc, hpc⟩, hmin⟩
        refine ⟨j + 1, by omega, ⟨c, by simpa using hc, hpc⟩, ?_⟩
        intro b c2 hb hbc
        cases b with
        | zero =>
          simp at hbc
          subst hbc
          simpa using h
        | succ b2 =>
          exact hmin b2 c2 (by omega) (by simpa using hbc)
      · rintro ⟨j, rfl, ⟨c, hc, hpc⟩, hmin⟩
        cases j with
        | zero =>
          simp at hc
          subst hc
          exact absurd hpc (by simpa using h)
        | succ j2 =>
          refine ⟨j2, by omega, ⟨c, by simpa using hc, hpc⟩, ?_⟩
          intro b c2 hb hbc
          exact hmin (b + 1) c2 (by omega) (by simpa using hbc)

theorem retryFold_spec {α : Type} (ook : α → Bool) :
    ∀ (b : List α) (i f : Nat) (per : List α),
      retryFold ook (i, f, per) b
        = (i + b.countP ook, f + b.countP (fun r => !ook r), per ++ b.filter ook) := by
  intro b
  induction b with
  | nil => intro i f per; simp [retryFold]
  | cons r rest ih =>
    intro i f per
    by_cases h : ook r
    · rw [show retryFold ook (i, f, per) (r :: rest)
          = retryFold ook (i + 1, f, per ++ [r]) rest by simp [retryFold, h]]
      rw [ih]
      simp [List.countP_cons, List.filter_cons, h, Prod.ext_iff]
      try omega
    · rw [show retryFold ook (i, f, per) (r :: rest)
          = retryFold ook (i, f + 1, per) rest by simp [retryFold, h]]
      rw [ih]
      simp [List.countP_cons, List.filter_cons, h, Prod.ext_iff]
      try omega

theorem processBatch_spec {α : Type} (bOk : List α → Bool) (ook : α → Bool)
    (acc : Nat × Nat × List α) (b : List α) :
    processBatch bOk ook acc b
      = if bOk b then (acc.1 + b.length, acc.2.1, acc.2.2 ++ b)
        else (acc.1 + b.countP ook,
              acc.2.1 + b.length + b.countP (fun r => !ook r),
              acc.2.2 ++ b.filter ook) := by
  by_cases h : bOk b
  · simp [processBatch, h]
  · simp only [processBatch, h, if_false]
    rw [retryFold_spec]

theorem batches_persisted {α : Type} (bOk : List α → Bool) (ook : α → Bool) :
    ∀ (bs : List (List α)) (acc : Nat × Nat × List α),
      ((bs.foldl (fun a b => processBatch bOk ook a b) acc).2.2)
        = acc.2.2 ++ (bs.map (fun b => if bOk b then b else b.filter ook)).flatten := by
  intro bs
  induction bs with
  | nil => intro acc; simp
  | cons b rest ih =>
    intro acc
    rw [List.foldl_cons, ih]
    rw [processBatch_spec]
    by_cases h : bOk b
    · simp [h, List.append_assoc]
    · simp [h, List.append_assoc]

theorem chunksF_flatten {α : Type} (n : Nat) (hn : 1 ≤ n) :
    ∀ (fuel : Nat) (l : List α), l.length ≤ fuel → (chunksF n fuel l).flatten = l := by
  intro fuel
  induction fuel with
  | zero =>
    intro l hl
    cases l with
    | nil => simp [chunksF]
    | cons x xs => simp at hl
  | succ fu ih =>
    intro l hl
    cases l with
    | nil => simp [chunksF]
    | cons x xs =>
      simp only [chunksF, List.flatten_cons]
      rw [ih]
      · exact List.take_append_drop n (x :: xs)
      · simp only [List.length_drop, List.length_cons]
        simp only [List.length_cons] at hl
        omega

theorem chunks_flatten {α : Type} (n : Nat) (hn : 1 ≤ n) (l : List α) :
    (chunks n l).flatten = l :=
  chunksF_flatten n hn l.length l (Nat.le_refl _)

/-- `clean_text_excel (some s) = some t` forces `t` to be the stripped
input. -/
theorem clean_text_excel_some_eq (s t : LC)
    (h : clean_text_excel (some s) = some t) : t = pyStrip s := by
  simp only [clean_text_excel] at h
  split at h
  · exact absurd h (by simp)
  · split at h
    · exact absurd h (by simp)
    · injection h with h
      exact h.symm

/-- Whatever `dashRangeGuard` returns satisfies the year/month/day range
checks of its guard. -/
theorem dashRangeGuard_ranges (d m y d2 m2 y2 : LC)
    (h : dashRangeGuard d m y = some (d2, m2, y2)) :
    2000 ≤ parseDigits y2 ∧ parseDigits y2 ≤ 2100
  ∧ 1 ≤ parseDigits m2 ∧ parseDigits m2 ≤ 12
  ∧ 1 ≤ parseDigits d2 ∧ parseDigits d2 ≤ 31 := by
  simp only [dashRangeGuard] at h
  split at h
  · rename_i hc
    simp only [Option.some.injEq, Prod.mk.injEq] at h
    obtain ⟨rfl, rfl, rfl⟩ := h
    exact ⟨hc.2.2.1, hc.2.2.2.1, hc.2.2.2.2.1, hc.2.2.2.2.2.1,
      hc.2.2.2.2.2.2.1, hc.2.2.2.2.2.2.2⟩
  · exact absurd h (by simp)

/-! ## Claims -/

/-- C1 (counterexample): the claim says every composite extractor scans
tokens split on slash, comma and whitespace and returns
`("123", "2024-01-01")` for `"123,01-01-2024"`; but `extract_receipt_info`
of `import_dcb_complete.py` splits only on `'/'` and returns
`(None, None)` for this input, which contains no slash. -/
theorem C1_counterexample :
    extract_receipt_info fbNone (some ("123,01-01-2024".data)) = (none, none) := by
  decide

/-- C1 (amended): `extract_receipt_info` splits only on `'/'`: with a
slash present, the number is everything before the last slash and the date
is parsed from the final segment — so `"2614/53/05-06-2025"` gives
`("2614/53", "2025-06-05")` — and any cell whose cleaned text has no
slash (including the sentinel `"-"` and `"123,01-01-2024"`) gives
`(None, None)`. -/
theorem C1_amended :
    (∀ fb, extract_receipt_info fb (some ("2614/53/05-06-2025".data))
        = (some ("2614/53".data), some ("2025-06-05".data)))
  ∧ (∀ fb, extract_receipt_info fb (some ("-".data)) = (none, none))
  ∧ (∀ (fb : LC → Option LC) (s : LC), ¬ '/' ∈ pyStrip s →
        extract_receipt_info fb (some s) = (none, none)) := by
  refine ⟨fun fb => rfl, fun fb => rfl, ?_⟩
  intro fb s h
  by_cases h0 : s = []
  · simp [extract_receipt_info, h0]
  · by_cases h1 : pyStrip s ∈ dateSentinels
    · simp [extract_receipt_info, h0, h1]
    · simp [extract_receipt_info, h0, h1, h]

/-- C1 (witness): instance of the no-slash clause of `C1_amended` at the
concrete input `"987"`. -/
theorem C1_witness :
    extract_receipt_info fbNone (some ("987".data)) = (none, none) :=
  C1_amended.2.2 fbNone ("987".data) (by decide)

/-- C2 (counterexample): the claim says the classifier rejects every
identity cell that is purely numeric of length ≤ 3, but
`import_dcb_complete.py:process_sheet` only rejects digits of length ≤ 2,
so the purely numeric length-3 cell `"999"` is accepted there. -/
theorem C2_counterexample :
    completeRowIdentity (some ("999".data)) (some ("Sri Temple".data))
      = some ("999".data, "Sri Temple".data)
  ∧ isdigitPy ("999".data) = true ∧ ("999".data).length ≤ 3 := by decide

/-- C2 (amended): in `import_dcb_from_excel.py` the classifier rejects an
identity cell whose lowercase form is in `skip_patterns` and any purely
numeric identity cell of length ≤ 3 (so `"12"` is rejected and `"A1234"`
accepted); in `import_dcb_complete.py` the sentinel comparison is
case-sensitive against its own literal list and the numeric-length
threshold is 2, so `"12"` is rejected but `"999"` is accepted. -/
theorem C2_amended :
    (∀ (ap : LC) (c2 : Option LC), pyLower (pyStrip ap) ∈ skipPatternsExcel →
        excelRowIdentity (some ap) c2 = none)
  ∧ (∀ (ap : LC) (c2 : Option LC), isdigitPy (pyStrip ap) = true →
        (pyStrip ap).length ≤ 3 → excelRowIdentity (some ap) c2 = none)
  ∧ (∀ (ap : LC) (c2 : Option LC), isdigitPy (pyStrip ap) = true →
        (pyStrip ap).length ≤ 2 → completeRowIdentity (some ap) c2 = none)
  ∧ excelRowIdentity (some ("A1234".data)) (some ("Sri Temple".data))
      = some ("A1234".data, "Sri Temple".data)
  ∧ excelRowIdentity (some ("12".data)) (some ("Sri Temple".data)) = none
  ∧ completeRowIdentity (some ("12".data)) (some ("Sri Temple".data)) = none
  ∧ completeRowIdentity (some ("999".data)) (some ("Sri Temple".data))
      = some ("999".data, "Sri Temple".data) := by
  refine ⟨?_, ?_, ?_, by decide, by decide, by decide, by decide⟩
  · intro ap c2 h
    simp only [excelRowIdentity]
    cases hc : clean_text_excel (some ap) with
    | none => rfl
    | some t =>
      have ht : t = pyStrip ap := clean_text_excel_some_eq ap t hc
      cases hc2 : clean_text_excel c2 with
      | none => rfl
      | some nm => simp [ht ▸ h]
  · intro ap c2 h1 h2
    simp only [excelRowIdentity]
    cases hc : clean_text_excel (some ap) with
    | none => rfl
    | some t =>
      have ht : t = pyStrip ap := clean_text_excel_some_eq ap t hc
      cases hc2 : clean_text_excel c2 with
      | none => rfl
      | some nm =>
        by_cases hA : pyLower t ∈ skipPatternsExcel ∨ pyLower nm ∈ nameSkipExcel
        · simp [hA]
        · subst ht
          simp [hA, h1, h2]
  · intro ap c2 h1 h2
    simp only [completeRowIdentity]
    by_cases hA : pyStrip ap = [] ∨ pyStrip ap ∈ apSentinelsComplete
    · simp [hA]
    · simp [hA, h1, h2]

/-- C2 (witness): instance of the length-≤-3 clause of `C2_amended` at the
concrete identity cell `"123"`. -/
theorem C2_witness :
    excelRowIdentity (some ("123".data)) (some ("Sri Temple".data)) = none :=
  C2_amended.2.1 ("123".data) (some ("Sri Temple".data)) (by decide) (by decide)

/-- C3 (counterexample): the claim says date parsing rejects years outside
`[2000, 2100]` and out-of-range months/days even when the format
superficially parses; but the slash-composite branch of
`import_dcb_complete.py:parse_date` returns `"1900-12-31"` (year 1900) and
`"2025-88-99"` (month 88, day 99), and `import_dcb_data.py:parse_date`
returns `"2025-13-1"` (month 13) with no validation at all. -/
theorem C3_counterexample :
    parse_date_complete fbNone (some ("1/2/31-12-1900".data))
      = some ("1900-12-31".data)
  ∧ parse_date_complete fbNone (some ("1/2/99-88-2025".data))
      = some ("2025-88-99".data)
  ∧ parse_date_data fbNone (some ("1-13-2025".data))
      = some ("2025-13-1".data) := by decide

/-- C3 (amended): only the plain `DD-MM-YYYY` branch of
`import_dcb_complete.py:parse_date` validates ranges — whenever it
returns a candidate, the year is in `[2000, 2100]`, the month in
`[1, 12]` and the day in `[1, 31]`; the slash-composite branch of the same
function and the whole of `import_dcb_data.py:parse_date` return
candidates without range validation. -/
theorem C3_amended :
    (∀ (s d m y : LC), dashBranchCore s = some (d, m, y) →
        2000 ≤ parseDigits y ∧ parseDigits y ≤ 2100
      ∧ 1 ≤ parseDigits m ∧ parseDigits m ≤ 12
      ∧ 1 ≤ parseDigits d ∧ parseDigits d ≤ 31)
  ∧ parse_date_complete fbNone (some ("1/2/31-12-1900".data))
      = some ("1900-12-31".data)
  ∧ parse_date_data fbNone (some ("1-13-2025".data))
      = some ("2025-13-1".data) := by
  refine ⟨?_, by decide, by decide⟩
  intro s d m y h
  simp only [dashBranchCore] at h
  split at h
  · split at h
    · simp only [dashDigitGuard] at h
      split at h
      · exact dashRangeGuard_ranges _ _ _ _ _ _ h
      · exact absurd h (by simp)
    · exact absurd h (by simp)
  · exact absurd h (by simp)

/-- C3 (witness): instance of the range-validation clause of `C3_amended`
at the concrete candidate `"05-06-2025"`. -/
theorem C3_witness :
    2000 ≤ parseDigits ("2025".data) ∧ parseDigits ("2025".data) ≤ 2100
  ∧ 1 ≤ parseDigits ("06".data) ∧ parseDigits ("06".data) ≤ 12
  ∧ 1 ≤ parseDigits ("05".data) ∧ parseDigits ("05".data) ≤ 31 :=
  C3_amended.1 ("05-06-2025".data) ("05".data) ("06".data) ("2025".data)
    (by decide)

/-- C4: the claim `clean_numeric("₹12,345.00") = clean_numeric("12345.00")
= 12345.0` holds for `import_dcb_from_csv_all_districts.py` and
`import_dcb_data.py`, but `clean_numeric` of `import_dcb_complete.py`
(and the identical `import_dcb_mcp.py`) strips the mojibake characters
`â ‚ ¹` instead of `₹`, so the rupee sign survives, `float` raises, and
the cell collapses to `0.0` — a currency-glyph input is not equivalent to
its glyph-free form there. -/
theorem C4_evidence :
    clean_numeric_complete (some ("₹12,345.00".data)) = 0
  ∧ clean_numeric_complete (some ("12345.00".data)) = 12345
  ∧ clean_numeric_data (some ("₹12,345.00".data)) = 12345
  ∧ clean_numeric_data (some ("12345.00".data)) = 12345
  ∧ clean_numeric_csv (some ("₹12,345.00".data)) = some 12345
  ∧ clean_numeric_csv (some ("12345.00".data)) = some 12345 := by decide

/-- C5 (counterexample): the claim says text cleaning maps every member of
the sentinel set `{"", "nan", "none", "null", "-", "n/a", "na"}` to
`None`; but `clean_text` of `import_dcb_from_excel.py` has no `"null"` in
its list and returns `"null"` unchanged, and `clean_text` of
`import_consolidated_excel.py` nulls only empty values, passing `"nan"`
and `"N/A"` through. -/
theorem C5_counterexample :
    clean_text_excel (some ("null".data)) = some ("null".data)
  ∧ clean_text_consolidated (some ("nan".data)) = some ("nan".data)
  ∧ clean_text_consolidated (some ("N/A".data)) = some ("N/A".data) := by decide

/-- C5 (amended): `clean_text` of `import_dcb_from_excel.py` returns
`None` exactly when the trimmed input lowercases into
`{"nan", "none", "", "-", "n/a", "na"}` (no `"null"`), while `clean_text`
of `import_consolidated_excel.py` returns `None` exactly when the value is
missing or trims to the empty string. -/
theorem C5_amended :
    (∀ s : LC, clean_text_excel (some s) = none
        ↔ pyLower (pyStrip s) ∈ textSentinelsExcel)
  ∧ clean_text_excel none = none
  ∧ (∀ s : LC, clean_text_consolidated (some s) = none ↔ pyStrip s = [])
  ∧ clean_text_consolidated none = none := by
  refine ⟨?_, rfl, ?_, rfl⟩
  · intro s
    simp only [clean_text_excel]
    by_cases h : pyLower (pyStrip s) ∈ textSentinelsExcel
    · simp [h]
    · rw [if_neg h]
      by_cases h2 : pyStrip s = []
      · exact absurd (by rw [h2]; decide) h
      · rw [if_neg h2]
        simp [h]
  · intro s
    simp only [clean_text_consolidated]
    by_cases h : s = [] ∨ pyStrip s = []
    · rw [if_pos h]
      refine ⟨fun _ => ?_, fun _ => rfl⟩
      rcases h with h | h
      · subst h; rfl
      · exact h
    · rw [if_neg h]
      constructor
      · intro hfalse
        exact absurd hfalse (by simp)
      · intro h2
        exact absurd (Or.inr h2) h

/-- C6 (counterexample): the claim says extent fields are emitted as
`None` when their cleaned value is zero or absent; but
`import_dcb_from_excel.py` emits an absent extent cell as the number `0`,
and `import_consolidated_excel.py` keeps an explicit `"0"` extent cell as
the number `0`. -/
theorem C6_counterexample :
    (excelDcb (some none) (some none) (some none) (some none) (some none)
        (some none)).ext_dry = Val.num 0
  ∧ (consolidatedDcb (some ("0".data)) none none none none none).ext_dry
      = Val.num 0 := by decide

/-- C6 (amended): in every assembler the four financial fields are always
numbers (`0` when the cell was absent); the zero-or-absent-extent-to-`None`
policy holds only in `import_dcb_complete.py` (`ext if ext > 0 else None`);
`import_dcb_from_excel.py` emits extents as numbers defaulting to `0`, and
`import_consolidated_excel.py` nulls an extent exactly when cleaning gave
`None`, keeping explicit zeros. -/
theorem C6_amended :
    (∀ ed ew da dc ca cc : Option LC,
        (completeDcb ed ew da dc ca cc).d_arrears
            = Val.num (clean_numeric_complete da)
      ∧ (completeDcb ed ew da dc ca cc).c_current
            = Val.num (clean_numeric_complete cc)
      ∧ ((completeDcb ed ew da dc ca cc).ext_dry = Val.null
            ↔ clean_numeric_complete ed ≤ 0)
      ∧ ((completeDcb ed ew da dc ca cc).ext_wet = Val.null
            ↔ clean_numeric_complete ew ≤ 0))
  ∧ (completeDcb none none none none none none).d_arrears = Val.num 0
  ∧ (∀ ed ew da dc ca cc : Option (Option LC),
        (excelDcb ed ew da dc ca cc).ext_dry = Val.num (excelSafeNum ed)
      ∧ (excelDcb ed ew da dc ca cc).d_arrears = Val.num (excelSafeNum da))
  ∧ (excelDcb (some none) (some none) (some none) (some none) (some none)
        (some none)).d_arrears = Val.num 0
  ∧ (∀ ed ew da dc ca cc : Option LC,
        ((consolidatedDcb ed ew da dc ca cc).ext_dry = Val.null
            ↔ clean_numeric_consolidated ed = none)
      ∧ (consolidatedDcb ed ew da dc ca cc).d_arrears
            = Val.num ((clean_numeric_consolidated da).getD 0))
  ∧ (consolidatedDcb none none none none none none).d_arrears = Val.num 0 := by
  refine ⟨?_, by decide, ?_, by decide, ?_, by decide⟩
  · intro ed ew da dc ca cc
    refine ⟨rfl, rfl, ?_, ?_⟩
    · simp only [completeDcb]
      split_ifs with h
      · exact iff_of_false (by simp) (not_le.mpr h)
      · exact iff_of_true rfl (le_of_not_lt h)
    · simp only [completeDcb]
      split_ifs with h
      · exact iff_of_false (by simp) (not_le.mpr h)
      · exact iff_of_true rfl (le_of_not_lt h)
  · intro ed ew da dc ca cc
    exact ⟨rfl, rfl⟩
  · intro ed ew da dc ca cc
    refine ⟨?_, rfl⟩
    cases hc : clean_numeric_consolidated ed with
    | none => simp [consolidatedDcb, hc]
    | some q => simp [consolidatedDcb, hc]

/-- Demonstration columns for the header-resolution witness: a plain
serial-number label and the two nested extent columns. -/
def demoCols : List PyCol :=
  [PyCol.single ("Sl No".data),
   PyCol.multi [some ("Extent Ac0Cents".data), some ("Dry".data)],
   PyCol.multi [some ("Extent Ac0Cents".data), some ("Wet".data)]]

/-- C7: `find_column_index` returns `some i` exactly when column `i`
satisfies the rule — its concatenated, blank-skipping, lowercased header
text contains every required token and no excluded token as a substring —
and every column before `i` fails the rule, i.e. the lowest matching index
wins. -/
theorem C7_header_first_match :
    ∀ (cols : List PyCol) (search exclude : List LC) (i : Nat),
      find_column_index cols search exclude = some i ↔
        (∃ c, cols[i]? = some c ∧ colMatches search exclude c = true) ∧
        ∀ j c, j < i → cols[j]? = some c → colMatches search exclude c = false := by
  intro cols search exclude i
  unfold find_column_index
  rw [findColAux_eq_some]
  constructor
  · rintro ⟨j, rfl, hx, hmin⟩
    simpa using ⟨hx, hmin⟩
  · rintro ⟨hx, hmin⟩
    exact ⟨i, by omega, hx, hmin⟩

/-- C7 (witness): on `demoCols` with the extent-dry rule, the resolver
returns index 1, so column 1 matches and column 0 does not. -/
theorem C7_witness :
    (∃ c, demoCols[1]? = some c
        ∧ colMatches ["extent".data, "dry".data] ["total".data, "wet".data] c
            = true)
  ∧ ∀ j c, j < 1 → demoCols[j]? = some c →
      colMatches ["extent".data, "dry".data] ["total".data, "wet".data] c
        = false :=
  (C7_header_first_match demoCols ["extent".data, "dry".data]
    ["total".data, "wet".data] 1).mp (by decide)

/-- C8 (counterexample): the claim says only individually failing records
are counted as errors; but with one record whose batch insert fails and
whose individual insert succeeds, the loop of
`import_consolidated_excel.py` reports `inserted = 1` and `failed = 1` —
the whole failed batch is pre-counted under `failed` even though no record
failed individually. -/
theorem C8_counterexample :
    importExcelBatches (fun _ => false) (fun _ => true) [(0 : Nat)]
      = (1, 1, [0]) := by decide

/-- C8 (amended): on batch failure every record of the batch is retried
individually, so a record that succeeds individually is persisted even
though its batch failed; but the `failed` counter is incremented by the
whole batch length up front, and the individual retries then add their own
`inserted`/`failed` counts on top. -/
theorem C8_amended :
    (∀ (α : Type) (bOk : List α → Bool) (ook : α → Bool) (l : List α) (r : α),
        r ∈ l → ook r = true → r ∈ (importExcelBatches bOk ook l).2.2)
  ∧ (∀ (α : Type) (bOk : List α → Bool) (ook : α → Bool)
        (acc : Nat × Nat × List α) (b : List α), bOk b = false →
        processBatch bOk ook acc b
          = (acc.1 + b.countP ook,
             acc.2.1 + b.length + b.countP (fun r => !ook r),
             acc.2.2 ++ b.filter ook)) := by
  constructor
  · intro α bOk ook l r hrl hook
    unfold importExcelBatches
    rw [batches_persisted]
    have hl : r ∈ (chunks 100 l).flatten := by
      rw [chunks_flatten 100 (by omega) l]
      exact hrl
    rw [List.mem_flatten] at hl
    obtain ⟨b, hb, hrb⟩ := hl
    have hmem : (if bOk b then b else b.filter ook)
        ∈ (chunks 100 l).map (fun b => if bOk b then b else b.filter ook) :=
      List.mem_map_of_mem _ hb
    have hrin : r ∈ (if bOk b then b else b.filter ook) := by
      by_cases h : bOk b
      · simpa [h] using hrb
      · simp [h, List.mem_filter, hrb, hook]
    simp only [List.nil_append, List.mem_flatten]
    exact ⟨_, hmem, hrin⟩
  · intro α bOk ook acc b hb
    rw [processBatch_spec]
    simp [hb]

/-- C8 (witness): instance of `C8_amended` at a single record whose batch
fails and which succeeds individually: it is persisted, and the loop state
becomes `inserted = 1`, `failed = 1`. -/
theorem C8_witness :
    (0 : Nat) ∈ (importExcelBatches (fun _ => false) (fun _ => true) [0]).2.2
  ∧ processBatch (fun _ : List Nat => false) (fun _ => true) (0, 0, []) [0]
      = (1, 1, [0]) :=
  ⟨C8_amended.1 Nat (fun _ => false) (fun _ => true) [0] 0 (by decide) rfl,
   (C8_amended.2 Nat (fun _ => false) (fun _ => true) (0, 0, []) [0] rfl).trans
     (by decide)⟩

/-- C9: whenever a row-identity check of any of the three importers
succeeds — `import_dcb_from_excel.py`, `import_dcb_complete.py`,
`import_dcb_from_csv_all_districts.py` — the produced AP gazette number
and institution name are both non-empty, so a row missing either identity
value never reaches record assembly or the upsert. -/
theorem C9_identity_nonempty :
    (∀ (c1 c2 : Option LC) (ap nm : LC),
        excelRowIdentity c1 c2 = some (ap, nm) → ap ≠ [] ∧ nm ≠ [])
  ∧ (∀ (c1 c2 : Option LC) (ap nm : LC),
        completeRowIdentity c1 c2 = some (ap, nm) → ap ≠ [] ∧ nm ≠ [])
  ∧ (∀ (c1 c2 : Option LC) (ap nm : LC),
        csvRowIdentity c1 c2 = Except.ok (ap, nm) → ap ≠ [] ∧ nm ≠ []) := by
  refine ⟨?_, ?_, ?_⟩
  · intro c1 c2 ap nm h
    simp only [excelRowIdentity] at h
    split at h
    · rename_i t1 t2 heq1 heq2
      split at h
      · exact Option.noConfusion h
      · split at h
        · exact Option.noConfusion h
        · simp only [Option.some.injEq, Prod.mk.injEq] at h
          obtain ⟨rfl, rfl⟩ := h
          exact ⟨clean_text_excel_ne_nil c1 t1 heq1,
            clean_text_excel_ne_nil c2 t2 heq2⟩
    · exact Option.noConfusion h
  · intro c1 c2 ap nm h
    simp only [completeRowIdentity] at h
    split at h
    · exact Option.noConfusion h
    · split at h
      · exact Option.noConfusion h
      · split at h
        · exact Option.noConfusion h
        · rename_i hg1 _
          split at h
          · exact Option.noConfusion h
          · split at h
            · exact Option.noConfusion h
            · rename_i hg2
              simp only [Option.some.injEq, Prod.mk.injEq] at h
              obtain ⟨rfl, rfl⟩ := h
              push_neg at hg1 hg2
              exact ⟨hg1.1, hg2.1⟩
  · intro c1 c2 ap nm h
    simp only [csvRowIdentity] at h
    split at h
    · rename_i t1 t2 heq1 heq2
      simp only [Except.ok.injEq, Prod.mk.injEq] at h
      obtain ⟨rfl, rfl⟩ := h
      exact ⟨clean_text_csv_ne_nil c1 t1 heq1, clean_text_csv_ne_nil c2 t2 heq2⟩
    · exact Except.noConfusion h

/-- C9 (witness): instances of `C9_identity_nonempty` for the three
importers at concrete accepted rows. -/
theorem C9_witness :
    ("A1234".data ≠ ([] : LC) ∧ "Sri Temple".data ≠ ([] : LC))
  ∧ ("999".data ≠ ([] : LC) ∧ "Sri Temple".data ≠ ([] : LC))
  ∧ ("A7".data ≠ ([] : LC) ∧ "T".data ≠ ([] : LC)) :=
  ⟨C9_identity_nonempty.1 (some ("A1234".data)) (some ("Sri Temple".data))
      ("A1234".data) ("Sri Temple".data) (by decide),
   C9_identity_nonempty.2.1 (some ("999".data)) (some ("Sri Temple".data))
      ("999".data) ("Sri Temple".data) (by decide),
   C9_identity_nonempty.2.2 (some ("A7".data)) (some ("T".data))
      ("A7".data) ("T".data) rfl⟩

/-- `clean_numeric` of `import_dcb_mcp.py` (lines 48-63): byte-identical
to the one in `import_dcb_complete.py`, embedded separately so the claim
about every variant can name it. -/
def clean_numeric_mcp (v : Option LC) : ℚ :=
  match v with
  | none => 0
  | some s0 =>
    let s := pyStrip s0
    if s ∈ numSentinelsComplete then 0
    else
      match parseFloat (s.filter
          (fun c => !(c = 'â' || c = '‚' || c = '¹' || c = ',' || isWs c))) with
      | some q => q
      | none => 0

/-- C10: every importer variant that carries the `"Shops"` sentinel —
`import_dcb_complete.py`, `import_dcb_mcp.py`,
`import_waqf_consolidated_excel.py` — maps the trimmed cell `"Shops"` to
`0.0`; in the first two the sentinel list membership itself is
case-sensitive (`"shops"` is not in the list). -/
theorem C10_shops_sentinel :
    clean_numeric_complete (some ("Shops".data)) = 0
  ∧ clean_numeric_complete (some (" Shops ".data)) = 0
  ∧ clean_numeric_mcp (some ("Shops".data)) = 0
  ∧ clean_numeric_mcp (some (" Shops ".data)) = 0
  ∧ clean_number_waqf (some ("Shops".data)) = 0
  ∧ clean_number_waqf (some (" Shops ".data)) = 0
  ∧ numSentinelsComplete.contains ("Shops".data) = true
  ∧ numSentinelsComplete.contains ("shops".data) = false := by decide

end Waqf
